import Mathlib

/-!
Verification of the streaming window analytics engine of `highload-final`
(package `internal/analytics`).  Float64 arithmetic is modelled by the real
numbers; `time.Time` values are modelled by natural-number ticks (they are
only stored and echoed, never computed with).  Each definition below embeds
the correspondingly named Go function or method.
-/

namespace Analytics

/-- MetricData (analytics.MetricData): one sample submitted for analysis. -/
structure MetricData where
  DeviceID : String
  Timestamp : Nat
  CPU : ℝ
  RPS : ℝ

/-- AnalysisResult (analytics.AnalysisResult): output of analysing one sample. -/
structure AnalysisResult where
  DeviceID : String
  Timestamp : Nat
  RollingAvgCPU : ℝ
  RollingAvgRPS : ℝ
  IsAnomaly : Bool
  AnomalyScore : ℝ
  AnomalyType : String
  StandardDev : ℝ

/-- MetricWindow (analytics.MetricWindow): the per-device sliding window,
three parallel sequences plus the capacity `maxSize`.  The `sync.RWMutex`
serialises all accesses to one window, so the window is modelled as a pure
value transformed atomically. -/
structure MetricWindow where
  cpuValues : List ℝ
  rpsValues : List ℝ
  timestamps : List Nat
  maxSize : Nat

/-- The empty window produced for a new device in `Analyzer.analyze`
(`make([]float64, 0, a.windowSize)` for each sequence, `maxSize = a.windowSize`). -/
def emptyWindow (windowSize : Nat) : MetricWindow :=
  { cpuValues := [], rpsValues := [], timestamps := [], maxSize := windowSize }

/-- One component of the append-then-trim step of `Analyzer.analyze`
(lines appending `data.CPU` etc. and the `if len(window.cpuValues) > window.maxSize`
block dropping index 0 via the `[1:]` reslice). -/
def trimAppend {α : Type} (ws : Nat) (l : List α) (x : α) : List α :=
  if (l ++ [x]).length > ws then (l ++ [x]).drop 1 else l ++ [x]

/-- windowAppend: the mutation `Analyzer.analyze` performs on the window —
append `data.CPU`, `data.RPS`, `data.Timestamp` to the three sequences, then,
if the CPU sequence is longer than `maxSize`, drop index 0 from all three. -/
def windowAppend (w : MetricWindow) (d : MetricData) : MetricWindow :=
  let cpu := w.cpuValues ++ [d.CPU]
  let rps := w.rpsValues ++ [d.RPS]
  let ts := w.timestamps ++ [d.Timestamp]
  if cpu.length > w.maxSize then
    { cpuValues := cpu.drop 1, rpsValues := rps.drop 1, timestamps := ts.drop 1,
      maxSize := w.maxSize }
  else
    { cpuValues := cpu, rpsValues := rps, timestamps := ts, maxSize := w.maxSize }

/-- runAppends: the window state after a sequence of analyse calls for the
same device (only the window mutation part of each call). -/
def runAppends (w : MetricWindow) (ds : List MetricData) : MetricWindow :=
  ds.foldl windowAppend w

/-- calculateAverage: `sum := 0.0; for _, v := range values { sum += v };
return sum / float64(len(values))`, guarded to return 0 for an empty slice. -/
noncomputable def calculateAverage (values : List ℝ) : ℝ :=
  if values.length = 0 then 0
  else (values.foldl (fun acc v => acc + v) 0) / (values.length : ℝ)

/-- calculateStdDev: accumulates `diff * diff` over the slice, divides by the
length (population variance) and takes the square root; 0 for an empty slice. -/
noncomputable def calculateStdDev (values : List ℝ) (mean : ℝ) : ℝ :=
  if values.length = 0 then 0
  else Real.sqrt
    ((values.foldl (fun acc v => acc + (v - mean) * (v - mean)) 0) / (values.length : ℝ))

/-- The rolling CPU average `avgCPU` computed by `Analyzer.analyze` after the
append (self-inclusive statistics). -/
noncomputable def avgCPUAfter (w : MetricWindow) (d : MetricData) : ℝ :=
  calculateAverage (windowAppend w d).cpuValues

/-- The rolling RPS average `avgRPS` computed by `Analyzer.analyze` after the append. -/
noncomputable def avgRPSAfter (w : MetricWindow) (d : MetricData) : ℝ :=
  calculateAverage (windowAppend w d).rpsValues

/-- The `stdDevCPU` value computed by `Analyzer.analyze`. -/
noncomputable def stdDevCPUAfter (w : MetricWindow) (d : MetricData) : ℝ :=
  calculateStdDev (windowAppend w d).cpuValues (avgCPUAfter w d)

/-- The `stdDevRPS` value computed by `Analyzer.analyze`. -/
noncomputable def stdDevRPSAfter (w : MetricWindow) (d : MetricData) : ℝ :=
  calculateStdDev (windowAppend w d).rpsValues (avgRPSAfter w d)

/-- The `zScoreCPU` value of `Analyzer.analyze`: declared 0, assigned the
quotient only under the guard `stdDevCPU > 0`. -/
noncomputable def zScoreCPUAfter (w : MetricWindow) (d : MetricData) : ℝ :=
  if stdDevCPUAfter w d > 0 then (d.CPU - avgCPUAfter w d) / stdDevCPUAfter w d else 0

/-- The `zScoreRPS` value of `Analyzer.analyze`. -/
noncomputable def zScoreRPSAfter (w : MetricWindow) (d : MetricData) : ℝ :=
  if stdDevRPSAfter w d > 0 then (d.RPS - avgRPSAfter w d) / stdDevRPSAfter w d else 0

/-- analyze (Analyzer.analyze): append the sample to its window, compute the
self-inclusive rolling statistics and z-scores, run the two sequential
classification `if` blocks, and build the AnalysisResult.  Returns the
mutated window together with the result. -/
noncomputable def analyze (threshold : ℝ) (w : MetricWindow) (d : MetricData) :
    MetricWindow × AnalysisResult :=
  let window := windowAppend w d
  let avgCPU := avgCPUAfter w d
  let avgRPS := avgRPSAfter w d
  let stdDevCPU := stdDevCPUAfter w d
  let stdDevRPS := stdDevRPSAfter w d
  let zScoreCPU := zScoreCPUAfter w d
  let zScoreRPS := zScoreRPSAfter w d
  let maxZScore := max |zScoreCPU| |zScoreRPS|
  let isAnomaly1 : Bool := if |zScoreCPU| > threshold then true else false
  let anomalyType1 : String :=
    if |zScoreCPU| > threshold then
      (if zScoreCPU > 0 then "CPU_SPIKE" else "CPU_DROP")
    else ""
  let isAnomaly2 : Bool := if |zScoreRPS| > threshold then true else isAnomaly1
  let anomalyType2 : String :=
    if |zScoreRPS| > threshold then
      (if anomalyType1 ≠ "" then "MULTIPLE_ANOMALY"
       else if zScoreRPS > 0 then "RPS_SPIKE" else "RPS_DROP")
    else anomalyType1
  (window,
   { DeviceID := d.DeviceID
     Timestamp := d.Timestamp
     RollingAvgCPU := avgCPU
     RollingAvgRPS := avgRPS
     IsAnomaly := isAnomaly2
     AnomalyScore := maxZScore
     AnomalyType := anomalyType2
     StandardDev := max stdDevCPU stdDevRPS })

/-- BoundedChan: a buffered Go channel as seen by a non-blocking sender —
a FIFO buffer, a capacity, and a closed flag.  `Analyzer.metricsChan` is
created with `make(chan MetricData, 1000)` and closed by `Analyzer.Stop`. -/
structure BoundedChan (α : Type) where
  buffer : List α
  capacity : Nat
  closed : Bool

/-- chanTrySend: the `select \x7b case ch <- data: default: \x7d` idiom of
`Analyzer.AddMetric`.  Per the Go specification, a send on a closed channel
can always proceed and panics when chosen, so in a select with a default
branch the closed-channel send case is selected and the program aborts:
this abort is modelled as `none`.  On an open channel with a free buffer
slot the value is enqueued at the tail; on an open full channel the default
branch runs and the value is silently dropped. -/
def chanTrySend {α : Type} (c : BoundedChan α) (x : α) : Option (BoundedChan α) :=
  if c.closed = true then none
  else if c.buffer.length < c.capacity then
    some { c with buffer := c.buffer ++ [x] }
  else some c

/-- AnalyzerChans: the channel state of an `Analyzer` (the parts of the
struct that `AddMetric` and `Stop` touch). -/
structure AnalyzerChans where
  metricsChan : BoundedChan MetricData
  resultsChan : BoundedChan AnalysisResult
  stopClosed : Bool

/-- AddMetric (Analyzer.AddMetric): non-blocking send of the sample into
`metricsChan`; `none` models the panic of a send on a closed channel. -/
def AddMetric (s : AnalyzerChans) (d : MetricData) : Option AnalyzerChans :=
  match chanTrySend s.metricsChan d with
  | none => none
  | some c => some { s with metricsChan := c }

/-- Stop (Analyzer.Stop): closes `stopChan`, waits for the workers to exit,
then closes `metricsChan` and `resultsChan`.  The state after Stop has
completed therefore has every channel closed. -/
def Stop (s : AnalyzerChans) : AnalyzerChans :=
  { stopClosed := true
    metricsChan := { s.metricsChan with closed := true }
    resultsChan := { s.resultsChan with closed := true } }

/-- Registry: the `Analyzer.windows` map together with a fresh-id counter
used to track window-instance identity (each `&MetricWindow\x7b...\x7d`
allocation in `Analyzer.analyze` yields a distinct instance; the id stands
for the pointer).  `Analyzer.mu` is held across the whole lookup/insert
block, so each `getOrCreate` executes atomically and concurrency is
modelled as an arbitrary interleaving, i.e. an arbitrary sequence of
atomic calls. -/
structure Registry where
  nextId : Nat
  windows : List (String × Nat)

/-- findWindow: lookup in the `Analyzer.windows` map (association list,
most recent insertion first). -/
def findWindow : List (String × Nat) → String → Option Nat
  | [], _ => none
  | (k, v) :: rest, d => if k = d then some v else findWindow rest d

/-- countWindows: how many map entries exist for a device (a Go map always
has at most one; the model proves the at-most-one property rather than
assuming it). -/
def countWindows : List (String × Nat) → String → Nat
  | [], _ => 0
  | (k, _) :: rest, d => (if k = d then 1 else 0) + countWindows rest d

/-- getOrCreate: the registry block of `Analyzer.analyze` under `a.mu.Lock()` —
look the device up; if absent allocate a fresh window instance and insert it;
return the (existing or new) instance. -/
def getOrCreate (r : Registry) (d : String) : Registry × Nat :=
  match findWindow r.windows d with
  | some wid => (r, wid)
  | none =>
    ({ nextId := r.nextId + 1, windows := (d, r.nextId) :: r.windows }, r.nextId)

/-- runGetOrCreate: a serialised interleaving of getOrCreate calls (one per
caller), returning the final registry and the window instance each caller
received. -/
def runGetOrCreate : Registry → List String → Registry × List Nat
  | r, [] => (r, [])
  | r, c :: cs =>
    let p := getOrCreate r c
    let q := runGetOrCreate p.1 cs
    (q.1, p.2 :: q.2)

lemma trimAppend_drop {α : Type} (ws : Nat) (xs : List α) (x : α) :
    trimAppend ws (xs.drop (xs.length - ws)) x =
      (xs ++ [x]).drop ((xs ++ [x]).length - ws) := by
  unfold trimAppend
  rcases Nat.lt_or_ge xs.length ws with h | h
  · have h0 : xs.length - ws = 0 := by omega
    have hc : ¬ ((xs.drop (xs.length - ws) ++ [x]).length > ws) := by
      simp only [List.length_append, List.length_drop, List.length_singleton]
      omega
    rw [if_neg hc, h0, List.drop_zero]
    have h1 : (xs ++ [x]).length - ws = 0 := by
      simp only [List.length_append, List.length_singleton]; omega
    rw [h1, List.drop_zero]
  · have hc : (xs.drop (xs.length - ws) ++ [x]).length > ws := by
      simp only [List.length_append, List.length_drop, List.length_singleton]
      omega
    rw [if_pos hc]
    rcases Nat.eq_zero_or_pos ws with hw | hw
    · subst hw
      rw [Nat.sub_zero, List.drop_length]
      simp
    · rw [List.drop_append_eq_append_drop, List.drop_drop,
        List.drop_append_eq_append_drop]
      have e1 : xs.length - ws + 1 = (xs ++ [x]).length - ws := by
        simp only [List.length_append, List.length_singleton]; omega
      have e2 : 1 - (xs.drop (xs.length - ws)).length = 0 := by
        simp only [List.length_drop]; omega
      have e3 : (xs ++ [x]).length - ws - xs.length = 0 := by
        simp only [List.length_append, List.length_singleton]; omega
      rw [e1, e2, e3]

lemma windowAppend_components (w : MetricWindow) (d : MetricData)
    (h1 : w.rpsValues.length = w.cpuValues.length)
    (h2 : w.timestamps.length = w.cpuValues.length) :
    windowAppend w d =
      { cpuValues := trimAppend w.maxSize w.cpuValues d.CPU
        rpsValues := trimAppend w.maxSize w.rpsValues d.RPS
        timestamps := trimAppend w.maxSize w.timestamps d.Timestamp
        maxSize := w.maxSize } := by
  unfold windowAppend trimAppend
  by_cases hc : (w.cpuValues ++ [d.CPU]).length > w.maxSize
  · rw [if_pos hc, if_pos hc,
      if_pos (show (w.rpsValues ++ [d.RPS]).length > w.maxSize by
        simp only [List.length_append, List.length_singleton] at hc ⊢; omega),
      if_pos (show (w.timestamps ++ [d.Timestamp]).length > w.maxSize by
        simp only [List.length_append, List.length_singleton] at hc ⊢; omega)]
  · rw [if_neg hc, if_neg hc,
      if_neg (show ¬ ((w.rpsValues ++ [d.RPS]).length > w.maxSize) by
        simp only [List.length_append, List.length_singleton] at hc ⊢; omega),
      if_neg (show ¬ ((w.timestamps ++ [d.Timestamp]).length > w.maxSize) by
        simp only [List.length_append, List.length_singleton] at hc ⊢; omega)]

lemma runAppends_empty (ws : Nat) (ds : List MetricData) :
    runAppends (emptyWindow ws) ds =
      { cpuValues := (ds.map (fun d => d.CPU)).drop (ds.length - ws)
        rpsValues := (ds.map (fun d => d.RPS)).drop (ds.length - ws)
        timestamps := (ds.map (fun d => d.Timestamp)).drop (ds.length - ws)
        maxSize := ws } := by
  induction ds using List.reverseRecOn with
  | nil => simp [runAppends, emptyWindow]
  | append_singleton ds d ih =>
    unfold runAppends at ih ⊢
    rw [List.foldl_append, ih]
    simp only [List.foldl_cons, List.foldl_nil]
    rw [windowAppend_components _ _ (by simp) (by simp)]
    have hcpu := trimAppend_drop ws (ds.map (fun d => d.CPU)) d.CPU
    have hrps := trimAppend_drop ws (ds.map (fun d => d.RPS)) d.RPS
    have hts := trimAppend_drop ws (ds.map (fun d => d.Timestamp)) d.Timestamp
    simp only [List.length_map] at hcpu hrps hts
    simp only [hcpu, hrps, hts, List.map_append, List.length_append,
      List.length_map, List.length_singleton, List.map_cons, List.map_nil]

/-- C1: for every device and every sequence of appends starting from the
fresh empty window, each of the three parallel sequences has length at most
`windowSize` after every append, and the retained contents are exactly the
trailing suffix of everything appended — i.e. when capacity would be
exceeded exactly the single oldest sample (index 0) is discarded from each
sequence (strict FIFO eviction). -/
theorem C1_window_bounded_fifo (ws : Nat) (ds : List MetricData) :
    (runAppends (emptyWindow ws) ds).cpuValues.length ≤ ws ∧
    (runAppends (emptyWindow ws) ds).rpsValues.length ≤ ws ∧
    (runAppends (emptyWindow ws) ds).timestamps.length ≤ ws ∧
    (runAppends (emptyWindow ws) ds).cpuValues =
      (ds.map (fun d => d.CPU)).drop (ds.length - ws) ∧
    (runAppends (emptyWindow ws) ds).rpsValues =
      (ds.map (fun d => d.RPS)).drop (ds.length - ws) ∧
    (runAppends (emptyWindow ws) ds).timestamps =
      (ds.map (fun d => d.Timestamp)).drop (ds.length - ws) := by
  rw [runAppends_empty]
  refine ⟨?_, ?_, ?_, rfl, rfl, rfl⟩ <;>
    simp only [List.length_drop, List.length_map] <;> omega

lemma foldl_add_eq_sum (l : List ℝ) (a : ℝ) :
    l.foldl (fun acc v => acc + v) a = a + l.sum := by
  induction l generalizing a with
  | nil => simp
  | cons x xs ih => simp [List.foldl_cons, ih]; ring

lemma foldl_sqdiff_eq_sum (m : ℝ) (l : List ℝ) (a : ℝ) :
    l.foldl (fun acc v => acc + (v - m) * (v - m)) a =
      a + (l.map (fun x => (x - m) ^ 2)).sum := by
  induction l generalizing a with
  | nil => simp
  | cons x xs ih => simp [List.foldl_cons, ih]; ring

/-- C2: the mean of an empty sequence is exactly 0 and the standard
deviation of an empty sequence is exactly 0; for a non-empty sequence of
length n, calculateStdDev is the population standard deviation
sqrt(sum((x - mean)^2) / n), dividing by n and not by n - 1. -/
theorem C2_empty_stats_population_stddev :
    calculateAverage [] = 0 ∧
    (∀ m : ℝ, calculateStdDev [] m = 0) ∧
    (∀ (values : List ℝ) (m : ℝ), values ≠ [] →
      calculateStdDev values m =
        Real.sqrt ((values.map (fun x => (x - m) ^ 2)).sum / (values.length : ℝ))) := by
  refine ⟨by simp [calculateAverage], fun m => by simp [calculateStdDev], ?_⟩
  intro values m hne
  unfold calculateStdDev
  rw [if_neg (by simpa using hne), foldl_sqdiff_eq_sum, zero_add]

/-- C2 witness: the population standard deviation formula evaluated on the
concrete non-empty sequence [1, 3] with mean parameter 2. -/
theorem C2_empty_stats_population_stddev_witness :
    ([(1 : ℝ), 3]) ≠ [] ∧
    calculateStdDev [(1 : ℝ), 3] 2 =
      Real.sqrt ((([(1 : ℝ), 3]).map (fun x => (x - 2) ^ 2)).sum /
        (([(1 : ℝ), 3]).length : ℝ)) :=
  ⟨by simp, C2_empty_stats_population_stddev.2.2 [(1 : ℝ), 3] 2 (by simp)⟩

/-- C4: the standard deviations computed by analyze are never negative, so
the division in the z-score is only ever evaluated with a strictly positive
divisor; the z-score equals (value - avg) / std exactly when std is
non-zero and equals 0 when std is zero (for both signals). -/
theorem C4_zscore_guard_total (w : MetricWindow) (d : MetricData) :
    0 ≤ stdDevCPUAfter w d ∧ 0 ≤ stdDevRPSAfter w d ∧
    zScoreCPUAfter w d =
      (if stdDevCPUAfter w d = 0 then 0
       else (d.CPU - avgCPUAfter w d) / stdDevCPUAfter w d) ∧
    zScoreRPSAfter w d =
      (if stdDevRPSAfter w d = 0 then 0
       else (d.RPS - avgRPSAfter w d) / stdDevRPSAfter w d) := by
  have hc : 0 ≤ stdDevCPUAfter w d := by
    unfold stdDevCPUAfter calculateStdDev
    split
    · exact le_refl 0
    · exact Real.sqrt_nonneg _
  have hr : 0 ≤ stdDevRPSAfter w d := by
    unfold stdDevRPSAfter calculateStdDev
    split
    · exact le_refl 0
    · exact Real.sqrt_nonneg _
  refine ⟨hc, hr, ?_, ?_⟩
  · unfold zScoreCPUAfter
    by_cases h : stdDevCPUAfter w d = 0
    · rw [if_pos h, if_neg (by rw [h]; exact lt_irrefl 0)]
    · rw [if_neg h, if_pos (lt_of_le_of_ne hc (Ne.symm h))]
  · unfold zScoreRPSAfter
    by_cases h : stdDevRPSAfter w d = 0
    · rw [if_pos h, if_neg (by rw [h]; exact lt_irrefl 0)]
    · rw [if_neg h, if_pos (lt_of_le_of_ne hr (Ne.symm h))]

/-- Sample data used by concrete witnesses. -/
noncomputable def sampleA : MetricData :=
  { DeviceID := "dev-a", Timestamp := 1, CPU := 10, RPS := 0 }

/-- C4 witness: the guard characterisation instantiated at a concrete window
and sample. -/
theorem C4_zscore_guard_total_witness :
    0 ≤ stdDevCPUAfter (emptyWindow 3) sampleA ∧
    0 ≤ stdDevRPSAfter (emptyWindow 3) sampleA ∧
    zScoreCPUAfter (emptyWindow 3) sampleA =
      (if stdDevCPUAfter (emptyWindow 3) sampleA = 0 then 0
       else (sampleA.CPU - avgCPUAfter (emptyWindow 3) sampleA) /
         stdDevCPUAfter (emptyWindow 3) sampleA) ∧
    zScoreRPSAfter (emptyWindow 3) sampleA =
      (if stdDevRPSAfter (emptyWindow 3) sampleA = 0 then 0
       else (sampleA.RPS - avgRPSAfter (emptyWindow 3) sampleA) /
         stdDevRPSAfter (emptyWindow 3) sampleA) :=
  C4_zscore_guard_total (emptyWindow 3) sampleA

lemma analyze_result (threshold : ℝ) (w : MetricWindow) (d : MetricData) :
    (analyze threshold w d).2 =
      { DeviceID := d.DeviceID
        Timestamp := d.Timestamp
        RollingAvgCPU := avgCPUAfter w d
        RollingAvgRPS := avgRPSAfter w d
        IsAnomaly :=
          if |zScoreRPSAfter w d| > threshold then true
          else if |zScoreCPUAfter w d| > threshold then true else false
        AnomalyScore := max |zScoreCPUAfter w d| |zScoreRPSAfter w d|
        AnomalyType :=
          if |zScoreRPSAfter w d| > threshold then
            (if (if |zScoreCPUAfter w d| > threshold then
                   (if zScoreCPUAfter w d > 0 then "CPU_SPIKE" else "CPU_DROP")
                 else "") ≠ "" then "MULTIPLE_ANOMALY"
             else if zScoreRPSAfter w d > 0 then "RPS_SPIKE" else "RPS_DROP")
          else
            (if |zScoreCPUAfter w d| > threshold then
               (if zScoreCPUAfter w d > 0 then "CPU_SPIKE" else "CPU_DROP")
             else "")
        StandardDev := max (stdDevCPUAfter w d) (stdDevRPSAfter w d) } := rfl

/-- C3: whenever both z-score magnitudes exceed the threshold in the same
classification call, the produced result has the anomaly flag set, anomaly
type MULTIPLE_ANOMALY (overriding the single-signal labels regardless of
the individual directions), and anomaly score max(|zCPU|, |zRPS|). -/
theorem C3_multiple_anomaly (threshold : ℝ) (w : MetricWindow) (d : MetricData)
    (hcpu : |zScoreCPUAfter w d| > threshold)
    (hrps : |zScoreRPSAfter w d| > threshold) :
    (analyze threshold w d).2.IsAnomaly = true ∧
    (analyze threshold w d).2.AnomalyType = "MULTIPLE_ANOMALY" ∧
    (analyze threshold w d).2.AnomalyScore =
      max |zScoreCPUAfter w d| |zScoreRPSAfter w d| := by
  rw [analyze_result]
  refine ⟨by simp [hrps], ?_, rfl⟩
  have hne : (if |zScoreCPUAfter w d| > threshold then
      (if zScoreCPUAfter w d > 0 then "CPU_SPIKE" else "CPU_DROP")
    else "") ≠ "" := by
    rw [if_pos hcpu]
    split <;> decide
  simp only [if_pos hrps, if_pos hne]

/-- C10: in every result produced by analyze, the anomaly flag and the
anomaly type are consistent — IsAnomaly is true exactly when AnomalyType is
non-empty, and the type is always one of the empty string, CPU_SPIKE,
CPU_DROP, RPS_SPIKE, RPS_DROP, MULTIPLE_ANOMALY. -/
theorem C10_flag_type_consistency (threshold : ℝ) (w : MetricWindow) (d : MetricData) :
    ((analyze threshold w d).2.IsAnomaly = true ↔
      (analyze threshold w d).2.AnomalyType ≠ "") ∧
    ((analyze threshold w d).2.AnomalyType = "" ∨
     (analyze threshold w d).2.AnomalyType = "CPU_SPIKE" ∨
     (analyze threshold w d).2.AnomalyType = "CPU_DROP" ∨
     (analyze threshold w d).2.AnomalyType = "RPS_SPIKE" ∨
     (analyze threshold w d).2.AnomalyType = "RPS_DROP" ∨
     (analyze threshold w d).2.AnomalyType = "MULTIPLE_ANOMALY") := by
  rw [analyze_result]
  by_cases h1 : |zScoreCPUAfter w d| > threshold <;>
    by_cases h2 : |zScoreRPSAfter w d| > threshold <;>
    by_cases h3 : zScoreCPUAfter w d > 0 <;>
    by_cases h4 : zScoreRPSAfter w d > 0 <;>
    simp [h1, h2, h3, h4]

/-- C10 witness: the consistency property instantiated at a concrete window
and sample. -/
theorem C10_flag_type_consistency_witness :
    ((analyze 2 (emptyWindow 3) sampleA).2.IsAnomaly = true ↔
      (analyze 2 (emptyWindow 3) sampleA).2.AnomalyType ≠ "") ∧
    ((analyze 2 (emptyWindow 3) sampleA).2.AnomalyType = "" ∨
     (analyze 2 (emptyWindow 3) sampleA).2.AnomalyType = "CPU_SPIKE" ∨
     (analyze 2 (emptyWindow 3) sampleA).2.AnomalyType = "CPU_DROP" ∨
     (analyze 2 (emptyWindow 3) sampleA).2.AnomalyType = "RPS_SPIKE" ∨
     (analyze 2 (emptyWindow 3) sampleA).2.AnomalyType = "RPS_DROP" ∨
     (analyze 2 (emptyWindow 3) sampleA).2.AnomalyType = "MULTIPLE_ANOMALY") :=
  C10_flag_type_consistency 2 (emptyWindow 3) sampleA

lemma stdDev_singleton (x : ℝ) :
    calculateStdDev [x] (calculateAverage [x]) = 0 := by
  have havg : calculateAverage [x] = x := by
    simp [calculateAverage]
  rw [havg]
  simp [calculateStdDev]

lemma stdDev_short (l : List ℝ) (h : l.length < 2) :
    calculateStdDev l (calculateAverage l) = 0 := by
  rcases l with _ | ⟨x, _ | ⟨y, rest⟩⟩
  · simp [calculateStdDev]
  · exact stdDev_singleton x
  · simp only [List.length_cons] at h
    omega

/-- C5: a reading processed while its device window holds fewer than 2
samples after the append (whatever the window held before the call and
whatever its capacity) gets standard deviation 0 for both signals, z-score
0 for both signals, and the anomaly flag unset, regardless of the
magnitudes of the CPU and RPS values (for any non-negative threshold). -/
theorem C5_cold_start_no_anomaly (threshold : ℝ) (w : MetricWindow) (d : MetricData)
    (hT : 0 ≤ threshold)
    (hcpu : (windowAppend w d).cpuValues.length < 2)
    (hrps : (windowAppend w d).rpsValues.length < 2) :
    stdDevCPUAfter w d = 0 ∧ stdDevRPSAfter w d = 0 ∧
    zScoreCPUAfter w d = 0 ∧ zScoreRPSAfter w d = 0 ∧
    (analyze threshold w d).2.IsAnomaly = false := by
  have hstdc : stdDevCPUAfter w d = 0 := by
    unfold stdDevCPUAfter avgCPUAfter
    exact stdDev_short _ hcpu
  have hstdr : stdDevRPSAfter w d = 0 := by
    unfold stdDevRPSAfter avgRPSAfter
    exact stdDev_short _ hrps
  have hz1 : zScoreCPUAfter w d = 0 := by
    unfold zScoreCPUAfter
    rw [if_neg (by rw [hstdc]; exact lt_irrefl 0)]
  have hz2 : zScoreRPSAfter w d = 0 := by
    unfold zScoreRPSAfter
    rw [if_neg (by rw [hstdr]; exact lt_irrefl 0)]
  refine ⟨hstdc, hstdr, hz1, hz2, ?_⟩
  rw [analyze_result]
  simp only [hz1, hz2, abs_zero]
  rw [if_neg (not_lt.mpr hT), if_neg (not_lt.mpr hT)]

/-- Window used by the C5 witness: capacity 1 and already holding one
sample, so the post-append trimmed window again holds exactly one sample. -/
noncomputable def windowCap1 : MetricWindow :=
  { cpuValues := [5], rpsValues := [5], timestamps := [0], maxSize := 1 }

/-- Sample used by the C5 witness: extreme magnitudes on both signals. -/
noncomputable def sampleHuge : MetricData :=
  { DeviceID := "dev-c1", Timestamp := 1, CPU := 1000000, RPS := 1000000 }

/-- C5 witness: with windowSize 1, a window already holding one sample and
an extreme incoming reading, the post-append window holds 1 sample (fewer
than 2) and no anomaly is flagged at threshold 2. -/
theorem C5_cold_start_no_anomaly_witness :
    0 ≤ (2 : ℝ) ∧
    (windowAppend windowCap1 sampleHuge).cpuValues.length < 2 ∧
    (windowAppend windowCap1 sampleHuge).rpsValues.length < 2 ∧
    (stdDevCPUAfter windowCap1 sampleHuge = 0 ∧
     stdDevRPSAfter windowCap1 sampleHuge = 0 ∧
     zScoreCPUAfter windowCap1 sampleHuge = 0 ∧
     zScoreRPSAfter windowCap1 sampleHuge = 0 ∧
     (analyze 2 windowCap1 sampleHuge).2.IsAnomaly = false) :=
  ⟨by norm_num, by decide, by decide,
   C5_cold_start_no_anomaly 2 windowCap1 sampleHuge (by norm_num)
     (by decide) (by decide)⟩

/-- Scenario samples for the windowSize-3 spike test: CPU 10, 10, 10, 100
for one device, RPS 0 throughout. -/
noncomputable def m10a : MetricData :=
  { DeviceID := "dev-w3", Timestamp := 1, CPU := 10, RPS := 0 }

/-- Second sample of the spike scenario. -/
noncomputable def m10b : MetricData :=
  { DeviceID := "dev-w3", Timestamp := 2, CPU := 10, RPS := 0 }

/-- Third sample of the spike scenario. -/
noncomputable def m10c : MetricData :=
  { DeviceID := "dev-w3", Timestamp := 3, CPU := 10, RPS := 0 }

/-- Fourth sample of the spike scenario: the visible CPU spike. -/
noncomputable def m100 : MetricData :=
  { DeviceID := "dev-w3", Timestamp := 4, CPU := 100, RPS := 0 }

/-- The device window after the first three submissions with windowSize 3. -/
noncomputable def window3 : MetricWindow :=
  runAppends (emptyWindow 3) [m10a, m10b, m10c]

/-- C6: with windowSize 3 and threshold 2, after submitting CPU readings
10, 10, 10, 100 in order the 4th reading is scored against the retained
values [10, 10, 100] (the just-submitted value included): rolling mean 40,
population stddev sqrt(((10-40)^2+(10-40)^2+(100-40)^2)/3), CPU z-score
(100-40)/that ≈ 1.41, below the threshold, so the anomaly flag is false. -/
theorem C6_spike_below_threshold :
    (windowAppend window3 m100).cpuValues = [10, 10, 100] ∧
    avgCPUAfter window3 m100 = 40 ∧
    stdDevCPUAfter window3 m100 =
      Real.sqrt ((((10 : ℝ) - 40) ^ 2 + ((10 : ℝ) - 40) ^ 2 + ((100 : ℝ) - 40) ^ 2) / 3) ∧
    zScoreCPUAfter window3 m100 =
      ((100 : ℝ) - 40) /
        Real.sqrt ((((10 : ℝ) - 40) ^ 2 + ((10 : ℝ) - 40) ^ 2 + ((100 : ℝ) - 40) ^ 2) / 3) ∧
    (analyze 2 window3 m100).2.IsAnomaly = false := by
  have hwin : (windowAppend window3 m100).cpuValues = [(10 : ℝ), 10, 100] := rfl
  have hrwin : (windowAppend window3 m100).rpsValues = [(0 : ℝ), 0, 0] := rfl
  have hsq : Real.sqrt ((((10 : ℝ) - 40) ^ 2 + ((10 : ℝ) - 40) ^ 2 + ((100 : ℝ) - 40) ^ 2) / 3) =
      Real.sqrt 1800 := by norm_num
  have havg : avgCPUAfter window3 m100 = 40 := by
    unfold avgCPUAfter
    rw [hwin]
    norm_num [calculateAverage, List.foldl_cons, List.foldl_nil]
  have hstd : stdDevCPUAfter window3 m100 = Real.sqrt 1800 := by
    unfold stdDevCPUAfter avgCPUAfter
    rw [hwin]
    norm_num [calculateAverage, calculateStdDev, List.foldl_cons, List.foldl_nil]
  have hpos : (0 : ℝ) < Real.sqrt 1800 := Real.sqrt_pos.mpr (by norm_num)
  have hz : zScoreCPUAfter window3 m100 = 60 / Real.sqrt 1800 := by
    unfold zScoreCPUAfter
    rw [hstd, havg, if_pos hpos]
    norm_num [m100]
  have hstdr : stdDevRPSAfter window3 m100 = 0 := by
    unfold stdDevRPSAfter avgRPSAfter
    rw [hrwin]
    norm_num [calculateAverage, calculateStdDev, List.foldl_cons, List.foldl_nil,
      Real.sqrt_zero]
  have hzr : zScoreRPSAfter window3 m100 = 0 := by
    unfold zScoreRPSAfter
    rw [if_neg (by rw [hstdr]; exact lt_irrefl 0)]
  have h30 : (30 : ℝ) ≤ Real.sqrt 1800 := by
    have h900 : Real.sqrt 900 = 30 := by
      rw [show (900 : ℝ) = 30 ^ 2 by norm_num, Real.sqrt_sq (by norm_num)]
    calc (30 : ℝ) = Real.sqrt 900 := h900.symm
    _ ≤ Real.sqrt 1800 := Real.sqrt_le_sqrt (by norm_num)
  have hle : |(60 : ℝ) / Real.sqrt 1800| ≤ 2 := by
    rw [abs_of_nonneg (div_nonneg (by norm_num) (le_of_lt hpos))]
    rw [div_le_iff₀ hpos]
    linarith
  refine ⟨hwin, havg, by rw [hstd, hsq], by rw [hz, hsq]; norm_num, ?_⟩
  rw [analyze_result]
  simp only [hz, hzr, abs_zero]
  rw [if_neg (by norm_num : ¬ ((0 : ℝ) > 2)), if_neg (not_lt.mpr hle)]

/-- C7: submitting a reading while the open ingestion queue is at capacity
returns without surfacing any error (AddMetric is total and yields a state,
not a failure) and leaves the queue contents unchanged — the reading is
silently dropped; below capacity the reading is enqueued at the tail. -/
theorem C7_addmetric_drop_on_full (s : AnalyzerChans) (d : MetricData)
    (hopen : s.metricsChan.closed = false) :
    (s.metricsChan.buffer.length = s.metricsChan.capacity →
      AddMetric s d = some s) ∧
    (s.metricsChan.buffer.length < s.metricsChan.capacity →
      AddMetric s d = some { s with metricsChan :=
        { s.metricsChan with buffer := s.metricsChan.buffer ++ [d] } }) := by
  constructor
  · intro hfull
    simp [AddMetric, chanTrySend, hopen, hfull]
  · intro hlt
    simp [AddMetric, chanTrySend, hopen, hlt]

/-- Channel states used by the concrete witnesses: a full open ingestion
queue of capacity 1. -/
noncomputable def stateFull : AnalyzerChans :=
  { metricsChan := { buffer := [sampleA], capacity := 1, closed := false }
    resultsChan := { buffer := [], capacity := 1000, closed := false }
    stopClosed := false }

/-- C7 witness: a submit against the concrete full open queue is accepted
without error and leaves the state unchanged. -/
theorem C7_addmetric_drop_on_full_witness :
    stateFull.metricsChan.closed = false ∧
    stateFull.metricsChan.buffer.length = stateFull.metricsChan.capacity ∧
    AddMetric stateFull sampleA = some stateFull :=
  ⟨rfl, rfl, (C7_addmetric_drop_on_full stateFull sampleA rfl).1 rfl⟩

/-- A fresh running engine state: both queues open and empty, capacity 1000
as in NewAnalyzer. -/
noncomputable def stateRunning : AnalyzerChans :=
  { metricsChan := { buffer := [], capacity := 1000, closed := false }
    resultsChan := { buffer := [], capacity := 1000, closed := false }
    stopClosed := false }

/-- C9 counterexample: a submit issued after Stop has completed is a send
on a closed channel, which the Go runtime turns into a panic even inside a
select with a default branch — the operation aborts the process (modelled
as none), so the engine does have a fatal failure mode. -/
theorem C9_counterexample_submit_after_stop :
    AddMetric (Stop stateRunning) sampleA = none := rfl

/-- C9 amended: as long as Stop has not closed the ingestion queue, no
submit aborts and no error is propagated — AddMetric always produces a
successor state; queue saturation in particular is absorbed silently.  The
exception forced by the counterexample: a submit issued after Stop has
completed panics on the closed queue. -/
theorem C9_no_abort_while_open (s : AnalyzerChans) (d : MetricData)
    (hopen : s.metricsChan.closed = false) :
    ∃ s2, AddMetric s d = some s2 := by
  unfold AddMetric chanTrySend
  rw [hopen]
  by_cases h : s.metricsChan.buffer.length < s.metricsChan.capacity
  · rw [if_neg (by simp), if_pos h]
    exact ⟨_, rfl⟩
  · rw [if_neg (by simp), if_neg h]
    exact ⟨_, rfl⟩

/-- C9 witness: the amended no-abort guarantee at the concrete running
state. -/
theorem C9_no_abort_while_open_witness :
    stateRunning.metricsChan.closed = false ∧
    ∃ s2, AddMetric stateRunning sampleA = some s2 :=
  ⟨rfl, C9_no_abort_while_open stateRunning sampleA rfl⟩

lemma count_zero_find_none (l : List (String × Nat)) (d : String)
    (h : countWindows l d = 0) : findWindow l d = none := by
  induction l with
  | nil => rfl
  | cons p rest ih =>
    obtain ⟨k, v⟩ := p
    simp only [countWindows] at h
    simp only [findWindow]
    by_cases hk : k = d
    · rw [if_pos hk] at h
      omega
    · rw [if_neg hk] at h ⊢
      exact ih (by omega)

lemma getOrCreate_found (r : Registry) (c d : String) (wid : Nat)
    (h : findWindow r.windows d = some wid) :
    findWindow (getOrCreate r c).1.windows d = some wid ∧
    countWindows (getOrCreate r c).1.windows d = countWindows r.windows d ∧
    (c = d → (getOrCreate r c).2 = wid) := by
  cases hc : findWindow r.windows c with
  | some w =>
    simp only [getOrCreate, hc]
    refine ⟨h, by trivial, ?_⟩
    intro hcd
    subst hcd
    rw [h] at hc
    exact (Option.some.injEq _ _).mp hc.symm
  | none =>
    have hcd : c ≠ d := by
      intro he
      subst he
      rw [h] at hc
      cases hc
    simp only [getOrCreate, hc, findWindow, countWindows]
    rw [if_neg hcd, if_neg hcd]
    exact ⟨h, by omega, fun he => absurd he hcd⟩

lemma getOrCreate_not_found (r : Registry) (c d : String)
    (hfind : findWindow r.windows d = none)
    (hcount : countWindows r.windows d = 0) :
    (c ≠ d → findWindow (getOrCreate r c).1.windows d = none ∧
             countWindows (getOrCreate r c).1.windows d = 0) ∧
    (c = d → findWindow (getOrCreate r c).1.windows d = some (getOrCreate r c).2 ∧
             countWindows (getOrCreate r c).1.windows d = 1) := by
  cases hc : findWindow r.windows c with
  | some w =>
    simp only [getOrCreate, hc]
    refine ⟨fun _ => ⟨hfind, hcount⟩, ?_⟩
    intro hcd
    subst hcd
    rw [hfind] at hc
    cases hc
  | none =>
    simp only [getOrCreate, hc, findWindow, countWindows]
    constructor
    · intro hcd
      rw [if_neg hcd, if_neg hcd]
      exact ⟨hfind, by omega⟩
    · intro hcd
      rw [if_pos hcd, if_pos hcd]
      exact ⟨rfl, by omega⟩

lemma runGetOrCreate_stable (calls : List String) :
    ∀ (r : Registry) (d : String) (wid : Nat),
      findWindow r.windows d = some wid →
      findWindow (runGetOrCreate r calls).1.windows d = some wid ∧
      countWindows (runGetOrCreate r calls).1.windows d = countWindows r.windows d ∧
      ∀ p ∈ calls.zip (runGetOrCreate r calls).2, p.1 = d → p.2 = wid := by
  induction calls with
  | nil =>
    intro r d wid h
    exact ⟨h, rfl, by simp [runGetOrCreate]⟩
  | cons c cs ih =>
    intro r d wid h
    obtain ⟨h1, h2, h3⟩ := getOrCreate_found r c d wid h
    obtain ⟨ih1, ih2, ih3⟩ := ih (getOrCreate r c).1 d wid h1
    simp only [runGetOrCreate]
    refine ⟨ih1, by rw [ih2, h2], ?_⟩
    intro p hp hpd
    simp only [List.zip_cons_cons, List.mem_cons] at hp
    rcases hp with he | hm
    · subst he
      exact h3 hpd
    · exact ih3 p hm hpd

/-- C8: getOrCreate calls for the same never-before-seen device identifier
(serialised by the registry mutex, hence modelled as an arbitrary
interleaving of atomic calls) create exactly one window instance for that
identifier, and every caller asking for it receives that same instance. -/
theorem C8_at_most_one_creation (r : Registry) (d : String) (calls : List String)
    (h : countWindows r.windows d = 0) :
    countWindows (runGetOrCreate r calls).1.windows d =
      (if d ∈ calls then 1 else 0) ∧
    ∀ p ∈ calls.zip (runGetOrCreate r calls).2, p.1 = d →
      findWindow (runGetOrCreate r calls).1.windows d = some p.2 := by
  induction calls generalizing r with
  | nil => simp [runGetOrCreate, h]
  | cons c cs ih =>
    have hfind : findWindow r.windows d = none := count_zero_find_none _ _ h
    by_cases hcd : c = d
    · subst hcd
      obtain ⟨hf1, hc1⟩ := (getOrCreate_not_found r c c hfind h).2 rfl
      obtain ⟨s1, s2, s3⟩ :=
        runGetOrCreate_stable cs (getOrCreate r c).1 c (getOrCreate r c).2 hf1
      simp only [runGetOrCreate]
      constructor
      · rw [if_pos (List.mem_cons_self c cs), s2, hc1]
      · intro p hp hpd
        simp only [List.zip_cons_cons, List.mem_cons] at hp
        rcases hp with he | hm
        · subst he
          exact s1
        · rw [s1, s3 p hm hpd]
    · obtain ⟨hf1, hc1⟩ := (getOrCreate_not_found r c d hfind h).1 hcd
      obtain ⟨ih1, ih2⟩ := ih (getOrCreate r c).1 hc1
      simp only [runGetOrCreate]
      constructor
      · rw [ih1]
        have hmem : (d ∈ c :: cs) ↔ (d ∈ cs) := by
          constructor
          · intro hm
            rcases List.mem_cons.mp hm with he | hm2
            · exact absurd he.symm hcd
            · exact hm2
          · exact fun hm => List.mem_cons_of_mem c hm
        exact (if_congr hmem rfl rfl).symm
      · intro p hp hpd
        simp only [List.zip_cons_cons, List.mem_cons] at hp
        rcases hp with he | hm
        · subst he
          exact absurd hpd hcd
        · exact ih2 p hm hpd

/-- Concrete registry and device names for the C8 witness. -/
def regEmpty : Registry := { nextId := 0, windows := [] }

/-- Device name used in concrete registry runs. -/
def devA : String := "dev-a"

/-- Second device name used in concrete registry runs. -/
def devB : String := "dev-b"

/-- C8 witness: the interleaving devA, devB, devA starting from the empty
registry creates exactly one window for devA and both devA callers receive
it. -/
theorem C8_at_most_one_creation_witness :
    countWindows regEmpty.windows devA = 0 ∧
    (countWindows (runGetOrCreate regEmpty [devA, devB, devA]).1.windows devA =
      (if devA ∈ [devA, devB, devA] then 1 else 0) ∧
     ∀ p ∈ ([devA, devB, devA]).zip (runGetOrCreate regEmpty [devA, devB, devA]).2,
       p.1 = devA →
       findWindow (runGetOrCreate regEmpty [devA, devB, devA]).1.windows devA =
         some p.2) :=
  ⟨rfl, C8_at_most_one_creation regEmpty devA [devA, devB, devA] rfl⟩

/-- Window used by the C3 witness: one prior sample of 0 on each signal,
capacity 2. -/
noncomputable def windowBoth : MetricWindow :=
  { cpuValues := [0], rpsValues := [0], timestamps := [0], maxSize := 2 }

/-- Sample used by the C3 witness: both signals jump to 2. -/
noncomputable def sampleBoth : MetricData :=
  { DeviceID := "dev-b2", Timestamp := 2, CPU := 2, RPS := 2 }

/-- C3 witness: with threshold 1/2, prior window [0] on both signals and a
sample of 2 on both, both z-scores are 1 > 1/2, and the result is flagged
MULTIPLE_ANOMALY with score max of the magnitudes. -/
theorem C3_multiple_anomaly_witness :
    |zScoreCPUAfter windowBoth sampleBoth| > (1 / 2 : ℝ) ∧
    |zScoreRPSAfter windowBoth sampleBoth| > (1 / 2 : ℝ) ∧
    ((analyze (1 / 2) windowBoth sampleBoth).2.IsAnomaly = true ∧
     (analyze (1 / 2) windowBoth sampleBoth).2.AnomalyType = "MULTIPLE_ANOMALY" ∧
     (analyze (1 / 2) windowBoth sampleBoth).2.AnomalyScore =
       max |zScoreCPUAfter windowBoth sampleBoth|
         |zScoreRPSAfter windowBoth sampleBoth|) := by
  have hcwin : (windowAppend windowBoth sampleBoth).cpuValues = [(0 : ℝ), 2] := rfl
  have hrwin : (windowAppend windowBoth sampleBoth).rpsValues = [(0 : ℝ), 2] := rfl
  have havgc : avgCPUAfter windowBoth sampleBoth = 1 := by
    unfold avgCPUAfter
    rw [hcwin]
    norm_num [calculateAverage, List.foldl_cons, List.foldl_nil]
  have havgr : avgRPSAfter windowBoth sampleBoth = 1 := by
    unfold avgRPSAfter
    rw [hrwin]
    norm_num [calculateAverage, List.foldl_cons, List.foldl_nil]
  have hstdc : stdDevCPUAfter windowBoth sampleBoth = 1 := by
    unfold stdDevCPUAfter avgCPUAfter
    rw [hcwin]
    norm_num [calculateAverage, calculateStdDev, List.foldl_cons, List.foldl_nil,
      Real.sqrt_one]
  have hstdr : stdDevRPSAfter windowBoth sampleBoth = 1 := by
    unfold stdDevRPSAfter avgRPSAfter
    rw [hrwin]
    norm_num [calculateAverage, calculateStdDev, List.foldl_cons, List.foldl_nil,
      Real.sqrt_one]
  have hzc : zScoreCPUAfter windowBoth sampleBoth = 1 := by
    unfold zScoreCPUAfter
    rw [hstdc, havgc, if_pos (by norm_num : (1 : ℝ) > 0)]
    norm_num [sampleBoth]
  have hzr : zScoreRPSAfter windowBoth sampleBoth = 1 := by
    unfold zScoreRPSAfter
    rw [hstdr, havgr, if_pos (by norm_num : (1 : ℝ) > 0)]
    norm_num [sampleBoth]
  have h1 : |zScoreCPUAfter windowBoth sampleBoth| > (1 / 2 : ℝ) := by
    rw [hzc]
    norm_num
  have h2 : |zScoreRPSAfter windowBoth sampleBoth| > (1 / 2 : ℝ) := by
    rw [hzr]
    norm_num
  exact ⟨h1, h2, C3_multiple_anomaly (1 / 2) windowBoth sampleBoth h1 h2⟩

end Analytics
